import Mathlib

/-!
Shallow embedding of `src/agent/src/skills/anthropic_executor.py`:
a command-line dispatcher exposing a `bash` skill (shell execution with a
denylist) and a `text_editor` skill (five line-oriented file operations
restricted to a `/tmp` sandbox prefix), plus the `main` dispatcher.

The filesystem is modelled as an association list from resolved paths to
file contents; the subprocess facility is an oracle parameter, and the list
of spawn requests issued to it is returned explicitly so that "no process
was spawned" is expressible.
-/

namespace Molten

/-- Python `pat in s` (substring containment), on the character lists. -/
def strContains (s pat : String) : Bool :=
  decide (pat.data <:+: s.data)

/-- Python `s.startswith(pre)`, on the character lists. -/
def pyStartsWith (s pre : String) : Bool :=
  pre.data.isPrefixOf s.data

/-! ### Command runner (`execute_bash`) -/

/-- The fixed denylist scanned by `execute_bash` (`dangerous_patterns`). -/
def dangerous_patterns : List String :=
  ["rm -rf /", "mkfs", "dd if=/dev", ":(){:|:&};:", "chmod 777", "chmod -R 777"]

/-- Parameters of `execute_bash`; absent `command` is the empty string
(Python `params.get("command", "")`), with the source's defaults. -/
structure BashParams where
  command : String
  timeout : Nat := 30
  workdir : String := "/tmp"
deriving DecidableEq, Repr

/-- A request handed to `subprocess.run`. -/
structure Spawn where
  command : String
  timeout : Nat
  workdir : String
deriving DecidableEq, Repr

/-- What the external subprocess facility reports back for a spawned command. -/
structure RunResult where
  stdout : String
  stderr : String
  returncode : Int
deriving DecidableEq, Repr

/-- Failures of the external subprocess facility
(`subprocess.TimeoutExpired`, or any other exception with its message). -/
inductive RunFailure
  | timeoutExpired
  | other (msg : String)
deriving DecidableEq, Repr

/-- The errors `execute_bash` can raise. -/
inductive BashError
  | commandRequired
  | blocked (pattern : String)
  | timeout (t : Nat)
  | execFailed (msg : String)
deriving DecidableEq, Repr

/-- The success dictionary returned by `execute_bash`. -/
structure BashResult where
  stdout : String
  stderr : String
  exit_code : Int
  command : String
deriving DecidableEq, Repr

/-- `execute_bash`, parameterised by the external subprocess facility `run`.
The second component records every spawn request issued, in order. -/
def execute_bash (run : Spawn → Except RunFailure RunResult) (p : BashParams) :
    Except BashError BashResult × List Spawn :=
  if p.command = "" then (.error .commandRequired, [])
  else
    match dangerous_patterns.find? (fun pat => strContains p.command pat) with
    | some pat => (.error (.blocked pat), [])
    | none =>
      let sp : Spawn := ⟨p.command, p.timeout, p.workdir⟩
      match run sp with
      | .ok r => (.ok ⟨r.stdout, r.stderr, r.returncode, p.command⟩, [sp])
      | .error .timeoutExpired => (.error (.timeout p.timeout), [sp])
      | .error (.other m) => (.error (.execFailed m), [sp])

/-! ### Text editor (`execute_text_editor`) -/

/-- Characters Python's `str.splitlines` treats as line boundaries. -/
def isLineBreak (c : Char) : Bool :=
  c == '\n' || c == '\r' || c == '\u000b' || c == '\u000c' ||
  c == '\u001c' || c == '\u001d' || c == '\u001e' || c == '\u0085' ||
  c == '\u2028' || c == '\u2029'

/-- Worker for `str.splitlines(keepends=True)`: `acc` is the current line,
reversed.  `"\r\n"` counts as a single boundary. -/
def splitLinesKeep : List Char → List Char → List (List Char)
  | [], acc => if acc.isEmpty then [] else [acc.reverse]
  | '\r' :: '\n' :: rest, acc => (acc.reverse ++ ['\r', '\n']) :: splitLinesKeep rest []
  | c :: rest, acc =>
      if isLineBreak c then (acc.reverse ++ [c]) :: splitLinesKeep rest []
      else splitLinesKeep rest (c :: acc)

/-- Python `s.splitlines(keepends=True)`. -/
def splitlines_keepends (s : String) : List String :=
  (splitLinesKeep s.data []).map String.mk

/-- CPython universal-newline translation on the character list: reading a
text file with the default `newline=None` turns every `"\r\n"` pair and
every lone `'\r'` into `'\n'`. -/
def normNL : List Char → List Char
  | [] => []
  | '\r' :: '\n' :: rest => '\n' :: normNL rest
  | '\r' :: rest => '\n' :: normNL rest
  | c :: rest => c :: normNL rest

/-- What `Path.read_text()` returns for a file whose stored text is `s`:
the universal-newline translation of `s`.  (`write_text` on a POSIX system
translates `'\n'` to `os.linesep = "\n"`, the identity, so only reads
translate.) -/
def pyNormalizeNewlines (s : String) : String :=
  ⟨normNL s.data⟩

/-- Python `list.insert(i, x)` with a possibly negative index `i`:
a negative index counts from the end (clamped to the front), an index past
the end appends. -/
def pyInsert {α : Type} (l : List α) (i : Int) (x : α) : List α :=
  let idx : Nat := if i < 0 then ((l.length : Int) + i).toNat else min i.toNat l.length
  l.take idx ++ [x] ++ l.drop idx

/-- The filesystem visible to the editor: resolved path ↦ file content. -/
abbrev FS := List (String × String)

/-- Content of the file at resolved path `p`, if it exists. -/
def fsRead (fs : FS) (p : String) : Option String :=
  (fs.find? (fun e => e.1 = p)).map (fun e => e.2)

/-- `write_text`: create or overwrite the file at resolved path `p`. -/
def fsWrite (fs : FS) (p c : String) : FS :=
  (p, c) :: fs.filter (fun e => ¬ e.1 = p)

/-- `unlink`: remove the file at resolved path `p`. -/
def fsRemove (fs : FS) (p : String) : FS :=
  fs.filter (fun e => ¬ e.1 = p)

/-- Parameters of `execute_text_editor`; absent `command`/`path` are the
empty string (falsy), `content` defaults to `""`, `line_number` to `none`. -/
structure EditParams where
  command : String
  path : String
  content : String := ""
  line_number : Option Int := none
deriving DecidableEq, Repr

/-- The errors `execute_text_editor` can raise. -/
inductive EditError
  | commandAndPathRequired
  | sandbox
  | notFound (path : String)
  | lineNumberRequired (cmd : String)
  | invalidLine (n : Int)
  | unlinkMissing (path : String)
  | unknownCommand (cmd : String)
deriving DecidableEq, Repr

/-- The success dictionary returned by `execute_text_editor`
(`content` is present only for `view`). -/
structure EditResult where
  status : String
  path : String
  content : Option String := none
  lines_affected : Nat
deriving DecidableEq, Repr

/-- The sandbox check: `str(path_obj).startswith("/tmp")`. -/
def sandboxOk (resolved : String) : Bool :=
  pyStartsWith resolved "/tmp"

/-- Python `content.count("\n") + 1`, the `lines_affected` value of
`create` and `view`. -/
def countLines (content : String) : Nat :=
  content.data.count '\n' + 1

/-- `execute_text_editor`, parameterised by the platform's path
canonicalisation `resolve` (`Path(path).resolve()`).  Returns the outcome
together with the filesystem after the call; an error raised before a write
leaves the filesystem exactly as it was. -/
def execute_text_editor (resolve : String → String) (p : EditParams) (fs : FS) :
    Except EditError EditResult × FS :=
  if p.command = "" ∨ p.path = "" then (.error .commandAndPathRequired, fs)
  else
    let path_obj := resolve p.path
    if sandboxOk path_obj = false then (.error .sandbox, fs)
    else if p.command = "create" then
      (.ok ⟨"created", path_obj, none, countLines p.content⟩, fsWrite fs path_obj p.content)
    else if p.command = "view" then
      match fsRead fs path_obj with
      | none => (.error (.notFound p.path), fs)
      | some stored =>
        let content := pyNormalizeNewlines stored
        (.ok ⟨"viewed", path_obj, some content, countLines content⟩, fs)
    else if p.command = "insert" then
      match p.line_number with
      | none => (.error (.lineNumberRequired "insert"), fs)
      | some n =>
        match fsRead fs path_obj with
        | none => (.error (.notFound p.path), fs)
        | some old =>
          let lines := splitlines_keepends (pyNormalizeNewlines old)
          let lines' := pyInsert lines (n - 1) (p.content ++ "\n")
          (.ok ⟨"inserted", path_obj, none, 1⟩, fsWrite fs path_obj (String.join lines'))
    else if p.command = "replace" then
      match p.line_number with
      | none => (.error (.lineNumberRequired "replace"), fs)
      | some n =>
        match fsRead fs path_obj with
        | none => (.error (.notFound p.path), fs)
        | some old =>
          let lines := splitlines_keepends (pyNormalizeNewlines old)
          if n < 1 ∨ n > (lines.length : Int) then (.error (.invalidLine n), fs)
          else
            let lines' := lines.set (n - 1).toNat (p.content ++ "\n")
            (.ok ⟨"replaced", path_obj, none, 1⟩, fsWrite fs path_obj (String.join lines'))
    else if p.command = "delete" then
      match p.line_number with
      | none =>
        match fsRead fs path_obj with
        | none => (.error (.unlinkMissing path_obj), fs)
        | some _ => (.ok ⟨"deleted", path_obj, none, 0⟩, fsRemove fs path_obj)
      | some n =>
        match fsRead fs path_obj with
        | none => (.error (.notFound p.path), fs)
        | some old =>
          let lines := splitlines_keepends (pyNormalizeNewlines old)
          if n < 1 ∨ n > (lines.length : Int) then (.error (.invalidLine n), fs)
          else
            let lines' := lines.eraseIdx (n - 1).toNat
            (.ok ⟨"deleted_line", path_obj, none, 1⟩, fsWrite fs path_obj (String.join lines'))
    else (.error (.unknownCommand p.command), fs)

/-! ### Dispatcher (`main`) -/

/-- `str(e)` for each bash-skill exception, as formatted by the source. -/
def bashErrMsg : BashError → String
  | .commandRequired => "Command is required"
  | .blocked pat => "Dangerous command blocked: " ++ pat
  | .timeout t => "Command timeout after " ++ toString t ++ " seconds"
  | .execFailed m => "Command execution failed: " ++ m

/-- `str(e)` for each editor exception, as formatted by the source
(the `unlink` case is CPython's `FileNotFoundError` message). -/
def editErrMsg : EditError → String
  | .commandAndPathRequired => "command and path are required"
  | .sandbox => "File operations restricted to /tmp directory"
  | .notFound p => "File not found: " ++ p
  | .lineNumberRequired c => "line_number is required for " ++ c
  | .invalidLine n => "Invalid line number: " ++ toString n
  | .unlinkMissing p => "[Errno 2] No such file or directory: " ++ "\x27" ++ p ++ "\x27"
  | .unknownCommand c => "Unknown command: " ++ c

/-- A JSON document the dispatcher prints on standard output. -/
inductive Doc
  | errorDoc (msg : String)
  | bashResultDoc (r : BashResult)
  | editResultDoc (r : EditResult)
deriving DecidableEq, Repr

/-- Observable outcome of one invocation: the JSON documents printed to
standard output, in order, and the process exit code. -/
structure ProcOutcome where
  printed : List Doc
  exitCode : Nat
deriving DecidableEq, Repr

/-- The `try` block of `main` after JSON parsing succeeded: dispatch on the
skill name, print the result or the caught exception's message, and exit.
In the unknown-skill branch the source assigns the error dictionary and then
calls `sys.exit(1)`; `SystemExit` is not an `Exception`, so the handler does
not catch it and the process exits before anything is printed. -/
def main_try (run : Spawn → Except RunFailure RunResult) (resolve : String → String)
    (skill : String) (bp : BashParams) (ep : EditParams) (fs : FS) :
    ProcOutcome × FS :=
  if skill = "bash" then
    match (execute_bash run bp).1 with
    | .ok r => (⟨[.bashResultDoc r], 0⟩, fs)
    | .error e => (⟨[.errorDoc (bashErrMsg e)], 1⟩, fs)
  else if skill = "text_editor" then
    match execute_text_editor resolve ep fs with
    | (.ok r, fs') => (⟨[.editResultDoc r], 0⟩, fs')
    | (.error e, fs') => (⟨[.errorDoc (editErrMsg e)], 1⟩, fs')
  else
    (⟨[], 1⟩, fs)

/-- The error document the source *constructs* (but never prints) for an
unknown skill name. -/
def unknownSkillDoc (skill : String) : Doc :=
  .errorDoc ("Unknown skill: " ++ skill)

/-! ### Helper lemmas -/

theorem fsRead_fsWrite_self (fs : FS) (p c : String) : fsRead (fsWrite fs p c) p = some c := by
  simp [fsRead, fsWrite, List.find?_cons_of_pos]

set_option maxHeartbeats 2000000 in
theorem splitLinesKeep_ne_nil (l acc : List Char) (h : ¬(l = [] ∧ acc = [])) :
    splitLinesKeep l acc ≠ [] := by
  induction l, acc using splitLinesKeep.induct with
  | case1 acc hacc =>
    exact absurd ⟨rfl, List.isEmpty_iff.mp hacc⟩ h
  | case2 acc hacc =>
    rw [splitLinesKeep]
    simp [hacc]
  | case3 rest acc ih =>
    rw [splitLinesKeep]
    simp
  | case4 c rest acc hg hbr ih =>
    rw [splitLinesKeep]
    · simp [hbr]
    · exact hg
  | case5 c rest acc hg hbr ih =>
    rw [splitLinesKeep]
    · rw [if_neg hbr]
      exact ih (by simp)
    · exact hg

theorem splitlines_keepends_ne_nil (s : String) (hs : s ≠ "") :
    splitlines_keepends s ≠ [] := by
  unfold splitlines_keepends
  have hd : s.data ≠ [] := by
    cases s with
    | mk data => simpa [String.ext_iff] using hs
  simpa using splitLinesKeep_ne_nil s.data [] (by simp [hd])

theorem pyInsert_of_ge {α : Type} (l : List α) (i : Int) (x : α)
    (h : (l.length : Int) ≤ i) : pyInsert l i x = l ++ [x] := by
  unfold pyInsert
  have h0 : ¬ i < 0 := by omega
  have h1 : l.length ≤ i.toNat := by omega
  simp [h0, Nat.min_eq_right h1, List.take_length, List.drop_length]

theorem splitLinesKeep_crnl_cons (xs acc : List Char) :
    splitLinesKeep ('\r' :: '\n' :: xs) acc
      = (acc.reverse ++ ['\r', '\n']) :: splitLinesKeep xs [] := by
  rw [splitLinesKeep]

theorem splitLinesKeep_cr_cons (xs acc : List Char)
    (h : ∀ r : List Char, xs = '\n' :: r → False) :
    splitLinesKeep ('\r' :: xs) acc
      = (acc.reverse ++ ['\r']) :: splitLinesKeep xs [] := by
  rw [splitLinesKeep]
  · rw [if_pos (by decide)]
  · intro r h1 h2
    exact h r h2

theorem splitLinesKeep_break_cons (c : Char) (xs acc : List Char) (hc : ¬ c = '\r')
    (hbr : isLineBreak c = true) :
    splitLinesKeep (c :: xs) acc = (acc.reverse ++ [c]) :: splitLinesKeep xs [] := by
  rw [splitLinesKeep]
  · rw [if_pos hbr]
  · intro r h1 h2
    exact hc h1

theorem splitLinesKeep_other_cons (c : Char) (xs acc : List Char) (hc : ¬ c = '\r')
    (hbr : isLineBreak c = false) :
    splitLinesKeep (c :: xs) acc = splitLinesKeep xs (c :: acc) := by
  rw [splitLinesKeep]
  · rw [if_neg (by simp [hbr])]
  · intro r h1 h2
    exact hc h1

theorem normNL_cr_cons (xs : List Char) (h : ∀ r : List Char, xs = '\n' :: r → False) :
    normNL ('\r' :: xs) = '\n' :: normNL xs := by
  rw [normNL]
  intro r h2
  exact h r h2

theorem normNL_other_cons (c : Char) (xs : List Char) (hc : ¬ c = '\r') :
    normNL (c :: xs) = c :: normNL xs := by
  rw [normNL]
  · intro r h1 h2
    exact hc h1
  · intro h1
    exact hc h1

/-- Universal-newline translation never changes the number of lines
`splitlines(keepends=True)` yields: `"\r\n"` and lone `"\r"` are single
boundaries before and after translation. -/
theorem splitLinesKeep_normNL_length (l : List Char) : ∀ acc : List Char,
    (splitLinesKeep (normNL l) acc).length = (splitLinesKeep l acc).length := by
  induction l using normNL.induct with
  | case1 => intro acc; rfl
  | case2 rest ih =>
    intro acc
    rw [normNL, splitLinesKeep_break_cons '\n' (normNL rest) acc (by decide) (by decide),
        splitLinesKeep_crnl_cons]
    simp [ih]
  | case3 rest hg ih =>
    intro acc
    rw [normNL_cr_cons rest hg,
        splitLinesKeep_break_cons '\n' (normNL rest) acc (by decide) (by decide),
        splitLinesKeep_cr_cons rest acc hg]
    simp [ih]
  | case4 c rest hg1 hg2 ih =>
    intro acc
    have hc : ¬ c = '\r' := fun h => hg2 h
    rw [normNL_other_cons c rest hc]
    by_cases hbr : isLineBreak c = true
    · rw [splitLinesKeep_break_cons c (normNL rest) acc hc hbr,
          splitLinesKeep_break_cons c rest acc hc hbr]
      simp [ih]
    · have hbr' : isLineBreak c = false := by simpa using hbr
      rw [splitLinesKeep_other_cons c (normNL rest) acc hc hbr',
          splitLinesKeep_other_cons c rest acc hc hbr']
      exact ih (c :: acc)

theorem splitlines_keepends_normalize_length (s : String) :
    (splitlines_keepends (pyNormalizeNewlines s)).length
      = (splitlines_keepends s).length := by
  unfold splitlines_keepends pyNormalizeNewlines
  simp [splitLinesKeep_normNL_length]

theorem normNL_of_no_cr (l : List Char) (h : '\r' ∉ l) : normNL l = l := by
  induction l using normNL.induct with
  | case1 => rfl
  | case2 rest ih => exact absurd (List.mem_cons_self _ _) h
  | case3 rest hg ih => exact absurd (List.mem_cons_self _ _) h
  | case4 c rest hg1 hg2 ih =>
    rw [normNL_other_cons c rest (fun hh => hg2 hh),
        ih (fun hm => h (List.mem_cons_of_mem c hm))]

theorem normNL_ne_nil (l : List Char) (h : l ≠ []) : normNL l ≠ [] := by
  induction l using normNL.induct with
  | case1 => exact absurd rfl h
  | case2 rest ih => rw [normNL]; simp
  | case3 rest hg ih => rw [normNL_cr_cons rest hg]; simp
  | case4 c rest hg1 hg2 ih => rw [normNL_other_cons c rest (fun hh => hg2 hh)]; simp

theorem pyNormalizeNewlines_of_no_cr (s : String) (h : '\r' ∉ s.data) :
    pyNormalizeNewlines s = s := by
  cases s with
  | mk data => exact congrArg String.mk (normNL_of_no_cr data h)

theorem pyNormalizeNewlines_ne_empty (s : String) (h : s ≠ "") :
    pyNormalizeNewlines s ≠ "" := by
  cases s with
  | mk data =>
    have hd : data ≠ [] := by simpa [String.ext_iff] using h
    intro hh
    have hn : normNL data = [] := by simpa [pyNormalizeNewlines, String.ext_iff] using hh
    exact normNL_ne_nil data hd hn

/-! ### Claim theorems -/

/-- C1: for every text-editor sub-operation (create, view, insert, replace,
delete), if the canonically resolved path does not pass the sandbox prefix
check, the call fails with the permission error and the filesystem is
returned untouched (for every filesystem state, so nothing was read or
mutated). -/
theorem editor_sandbox_blocks (resolve : String → String) (p : EditParams) (fs : FS)
    (hcmd : p.command ∈ (["create", "view", "insert", "replace", "delete"] : List String))
    (hpath : p.path ≠ "")
    (hsb : sandboxOk (resolve p.path) = false) :
    execute_text_editor resolve p fs = (.error .sandbox, fs) := by
  have h1 : ¬(p.command = "" ∨ p.path = "") := by
    rintro (h | h)
    · rw [h] at hcmd; revert hcmd; decide
    · exact hpath h
  simp only [execute_text_editor]
  rw [if_neg h1, if_pos hsb]

/-- Witness for C1: `view` on `/etc/passwd` fails with the permission error. -/
theorem editor_sandbox_blocks_witness :
    execute_text_editor id ⟨"view", "/etc/passwd", "", none⟩ [] = (.error .sandbox, []) :=
  editor_sandbox_blocks id ⟨"view", "/etc/passwd", "", none⟩ [] (by decide) (by decide)
    (by decide)

/-- C2: a command containing any denylist pattern as a substring makes
`execute_bash` fail with a blocked-command error naming a matched denylist
pattern, and no spawn request is issued to the subprocess facility. -/
theorem bash_blocked_no_spawn (run : Spawn → Except RunFailure RunResult) (p : BashParams)
    (pat : String) (hmem : pat ∈ dangerous_patterns)
    (hsub : strContains p.command pat = true) :
    (execute_bash run p).2 = [] ∧
    ∃ q ∈ dangerous_patterns, strContains p.command q = true ∧
      (execute_bash run p).1 = .error (.blocked q) := by
  have hpat : pat.data ≠ [] := by fin_cases hmem <;> decide
  have hcd : ¬(p.command = "") := by
    intro h
    unfold strContains at hsub
    rw [h] at hsub
    exact hpat (List.infix_nil.mp (of_decide_eq_true hsub))
  unfold execute_bash
  rw [if_neg hcd]
  have hfind : (dangerous_patterns.find? (fun q => strContains p.command q)).isSome :=
    List.find?_isSome.mpr ⟨pat, hmem, hsub⟩
  obtain ⟨q, hq⟩ := Option.isSome_iff_exists.mp hfind
  rw [hq]
  exact ⟨rfl, q, List.mem_of_find?_eq_some hq, List.find?_some hq, rfl⟩

/-- Witness for C2: `sudo rm -rf / --force` is blocked and nothing is spawned. -/
theorem bash_blocked_no_spawn_witness :
    (execute_bash (fun _ => .error .timeoutExpired) ⟨"sudo rm -rf / --force", 30, "/tmp"⟩).2
      = [] ∧
    ∃ q ∈ dangerous_patterns, strContains "sudo rm -rf / --force" q = true ∧
      (execute_bash (fun _ => .error .timeoutExpired) ⟨"sudo rm -rf / --force", 30, "/tmp"⟩).1
        = .error (.blocked q) :=
  bash_blocked_no_spawn (fun _ => .error .timeoutExpired) ⟨"sudo rm -rf / --force", 30, "/tmp"⟩
    "rm -rf /" (by decide) (by decide)

/-- C3: on an existing file, `replace` and line-mode `delete` with a
line number that is zero, negative, or greater than the file's line count
fail with the validation error naming that line number, and the filesystem
is returned exactly as it was. -/
theorem replace_delete_invalid_line (resolve : String → String) (path content : String)
    (fs : FS) (old : String) (n : Int)
    (hpath : path ≠ "")
    (hsb : sandboxOk (resolve path) = true)
    (hex : fsRead fs (resolve path) = some old)
    (hbad : n < 1 ∨ ((splitlines_keepends old).length : Int) < n) :
    execute_text_editor resolve ⟨"replace", path, content, some n⟩ fs
      = (.error (.invalidLine n), fs) ∧
    execute_text_editor resolve ⟨"delete", path, content, some n⟩ fs
      = (.error (.invalidLine n), fs) := by
  have hlen := splitlines_keepends_normalize_length old
  constructor
  · have h1 : ¬(("replace" : String) = "" ∨ path = "") := by simp [hpath]
    simp only [execute_text_editor]
    rw [if_neg h1]
    simp only [hsb, hex]
    simp
    omega
  · have h1 : ¬(("delete" : String) = "" ∨ path = "") := by simp [hpath]
    simp only [execute_text_editor]
    rw [if_neg h1]
    simp only [hsb, hex]
    simp
    omega

/-- Witness for C3: `replace`/`delete` at line 0 of a one-line file
fail and leave the filesystem unchanged. -/
theorem replace_delete_invalid_line_witness :
    execute_text_editor id ⟨"replace", "/tmp/a.txt", "x", some 0⟩ [("/tmp/a.txt", "one\n")]
      = (.error (.invalidLine 0), [("/tmp/a.txt", "one\n")]) ∧
    execute_text_editor id ⟨"delete", "/tmp/a.txt", "x", some 0⟩ [("/tmp/a.txt", "one\n")]
      = (.error (.invalidLine 0), [("/tmp/a.txt", "one\n")]) :=
  replace_delete_invalid_line id "/tmp/a.txt" "x" [("/tmp/a.txt", "one\n")] "one\n" 0
    (by decide) (by decide) (by decide) (by decide)

/-- Counterexample for C5 as stated: creating `/tmp/a.txt` with the content
`"a\r\nb"` and viewing it returns `"a\nb"` — `read_text`'s universal-newline
translation makes the round-trip not byte-exact for contents containing
carriage returns. -/
theorem create_then_view_cr_counterexample :
    (execute_text_editor id ⟨"view", "/tmp/a.txt", "", none⟩
        (execute_text_editor id ⟨"create", "/tmp/a.txt", "a\r\nb", none⟩ []).2).1
      = .ok ⟨"viewed", "/tmp/a.txt", some "a\nb", 2⟩ ∧
    ("a\nb" : String) ≠ "a\r\nb" :=
  ⟨rfl, by decide⟩

/-- C5 (amended): `create` followed by `view` on the same in-sandbox path
succeeds and returns the written content with universal-newline translation
applied on read (`\r\n` and lone `\r` become `\n`); this is byte-identical
to the written content whenever it contains no carriage return. -/
theorem create_then_view_normalized (resolve : String → String) (path content : String)
    (fs : FS) (hpath : path ≠ "") (hsb : sandboxOk (resolve path) = true) :
    (execute_text_editor resolve ⟨"view", path, "", none⟩
        (execute_text_editor resolve ⟨"create", path, content, none⟩ fs).2).1
      = .ok ⟨"viewed", resolve path, some (pyNormalizeNewlines content),
             countLines (pyNormalizeNewlines content)⟩ ∧
    ('\r' ∉ content.data → pyNormalizeNewlines content = content) := by
  refine ⟨?_, pyNormalizeNewlines_of_no_cr content⟩
  have h1 : ¬(("create" : String) = "" ∨ path = "") := by simp [hpath]
  have h2 : ¬(("view" : String) = "" ∨ path = "") := by simp [hpath]
  have hcreate : (execute_text_editor resolve ⟨"create", path, content, none⟩ fs).2
      = fsWrite fs (resolve path) content := by
    simp only [execute_text_editor]
    rw [if_neg h1, if_neg (by simp [hsb])]
    simp
  rw [hcreate]
  simp only [execute_text_editor]
  rw [if_neg h2, if_neg (by simp [hsb])]
  simp [fsRead_fsWrite_self]

/-- Witness for C5 (amended): creating `/tmp/a.txt` with `"one\ntwo"` and
viewing it returns exactly that content, which is carriage-return free. -/
theorem create_then_view_normalized_witness :
    (execute_text_editor id ⟨"view", "/tmp/a.txt", "", none⟩
        (execute_text_editor id ⟨"create", "/tmp/a.txt", "one\ntwo", none⟩ []).2).1
      = .ok ⟨"viewed", "/tmp/a.txt", some (pyNormalizeNewlines "one\ntwo"),
             countLines (pyNormalizeNewlines "one\ntwo")⟩ ∧
    ('\r' ∉ ("one\ntwo" : String).data →
      pyNormalizeNewlines "one\ntwo" = "one\ntwo") :=
  create_then_view_normalized id "/tmp/a.txt" "one\ntwo" [] (by decide) (by decide)

/-- Counterexample for C6 as stated: replacing line 2 of the CRLF file
`"one\r\ntwo\r\n"` writes `"one\nX\n"`, whose line 1 is `"one\n"` — not
byte-identical to the original line 1 `"one\r\n"`, because `read_text`
normalizes the terminators of every line before the rewrite. -/
theorem replace_crlf_rewrites_other_lines :
    fsRead (execute_text_editor id ⟨"replace", "/tmp/a.txt", "X", some 2⟩
        [("/tmp/a.txt", "one\r\ntwo\r\n")]).2 "/tmp/a.txt" = some "one\nX\n" ∧
    (splitlines_keepends "one\r\ntwo\r\n")[(0 : Nat)]? = some "one\r\n" ∧
    (splitlines_keepends "one\nX\n")[(0 : Nat)]? = some "one\n" ∧
    ("one\n" : String) ≠ "one\r\n" :=
  ⟨rfl, rfl, rfl, by decide⟩

/-- C6 (amended): `replace` at an in-range line `n` rewrites the file to the
join of the *newline-normalized* line sequence (the lines as `read_text`
returns them) with entry `n` replaced by the given content plus a trailing
newline; in the written sequence line `n` is exactly that newline-terminated
content, and every other position `j` of the normalized sequence is
unchanged. -/
theorem replace_changes_only_normalized_line (resolve : String → String)
    (path content : String) (fs : FS) (old : String) (n : Int) (j : Nat)
    (hpath : path ≠ "")
    (hsb : sandboxOk (resolve path) = true)
    (hex : fsRead fs (resolve path) = some old)
    (h1 : 1 ≤ n) (h2 : n ≤ ((splitlines_keepends old).length : Int))
    (hj : j ≠ (n - 1).toNat) :
    execute_text_editor resolve ⟨"replace", path, content, some n⟩ fs
      = (.ok ⟨"replaced", resolve path, none, 1⟩,
         fsWrite fs (resolve path)
           (String.join ((splitlines_keepends (pyNormalizeNewlines old)).set
             (n - 1).toNat (content ++ "\n")))) ∧
    ((splitlines_keepends (pyNormalizeNewlines old)).set (n - 1).toNat
        (content ++ "\n"))[(n - 1).toNat]?
      = some (content ++ "\n") ∧
    ((splitlines_keepends (pyNormalizeNewlines old)).set (n - 1).toNat
        (content ++ "\n"))[j]?
      = (splitlines_keepends (pyNormalizeNewlines old))[j]? := by
  have hlen := splitlines_keepends_normalize_length old
  refine ⟨?_, ?_, ?_⟩
  · have hne : ¬(("replace" : String) = "" ∨ path = "") := by simp [hpath]
    simp only [execute_text_editor]
    rw [if_neg hne, if_neg (by simp [hsb])]
    simp only [hex]
    have hb : ¬(n < 1 ∨ n > ((splitlines_keepends (pyNormalizeNewlines old)).length : Int)) := by
      omega
    simp [hb]
  · have hlt : (n - 1).toNat < (splitlines_keepends (pyNormalizeNewlines old)).length := by
      omega
    simp [List.getElem?_set_self', hlt]
    exact ⟨_, List.getElem?_eq_getElem (by omega)⟩
  · simp [List.getElem?_set_ne (show n.toNat - 1 ≠ j by omega)]

/-- Witness for C6 (amended): replacing line 2 of `"one\ntwo\n"` with `"X"`
writes `"one\nX\n"`, line 2 becomes `"X\n"`, and line 1 is untouched. -/
theorem replace_changes_only_normalized_line_witness :
    execute_text_editor id ⟨"replace", "/tmp/a.txt", "X", some 2⟩ [("/tmp/a.txt", "one\ntwo\n")]
      = (.ok ⟨"replaced", "/tmp/a.txt", none, 1⟩,
         fsWrite [("/tmp/a.txt", "one\ntwo\n")] "/tmp/a.txt"
           (String.join ((splitlines_keepends (pyNormalizeNewlines "one\ntwo\n")).set
             ((2 : Int) - 1).toNat ("X" ++ "\n")))) ∧
    ((splitlines_keepends (pyNormalizeNewlines "one\ntwo\n")).set ((2 : Int) - 1).toNat
        ("X" ++ "\n"))[((2 : Int) - 1).toNat]?
      = some ("X" ++ "\n") ∧
    ((splitlines_keepends (pyNormalizeNewlines "one\ntwo\n")).set ((2 : Int) - 1).toNat
        ("X" ++ "\n"))[(0 : Nat)]?
      = (splitlines_keepends (pyNormalizeNewlines "one\ntwo\n"))[(0 : Nat)]? :=
  replace_changes_only_normalized_line id "/tmp/a.txt" "X" [("/tmp/a.txt", "one\ntwo\n")]
    "one\ntwo\n" 2 0 (by decide) (by decide) (by decide) (by decide) (by decide) (by decide)

/-- C7: the concrete scenario: `create /tmp/a.txt "one\ntwo"` reports
`lines_affected = 2`; `insert` at line 2 of content `"INSERTED"` makes the
file `"one\nINSERTED\ntwo"`; `view` then returns exactly that content. -/
theorem concrete_create_insert_view :
    (execute_text_editor id ⟨"create", "/tmp/a.txt", "one\ntwo", none⟩ []).1
      = .ok ⟨"created", "/tmp/a.txt", none, 2⟩ ∧
    fsRead (execute_text_editor id ⟨"insert", "/tmp/a.txt", "INSERTED", some 2⟩
        (execute_text_editor id ⟨"create", "/tmp/a.txt", "one\ntwo", none⟩ []).2).2 "/tmp/a.txt"
      = some "one\nINSERTED\ntwo" ∧
    (execute_text_editor id ⟨"view", "/tmp/a.txt", "", none⟩
        (execute_text_editor id ⟨"insert", "/tmp/a.txt", "INSERTED", some 2⟩
          (execute_text_editor id ⟨"create", "/tmp/a.txt", "one\ntwo", none⟩ []).2).2).1
      = .ok ⟨"viewed", "/tmp/a.txt", some "one\nINSERTED\ntwo", 3⟩ := by
  refine ⟨rfl, ?_, ?_⟩ <;> rfl

/-- Counterexample for C8 as stated: inserting at line 5 of the stored file
`"a\r\nb"` writes `"a\nbX\n"`, not the join of the raw stored line sequence
plus the new line (which would be `"a\r\nbX\n"`): the appended-to sequence
is the one `read_text` returns, with normalized terminators. -/
theorem insert_beyond_end_cr_counterexample :
    fsRead (execute_text_editor id ⟨"insert", "/tmp/a.txt", "X", some 5⟩
        [("/tmp/a.txt", "a\r\nb")]).2 "/tmp/a.txt" = some "a\nbX\n" ∧
    ("a\nbX\n" : String) ≠ String.join (splitlines_keepends "a\r\nb" ++ ["X" ++ "\n"]) :=
  ⟨rfl, by decide⟩

/-- C8 (amended): `insert` with a line number strictly greater than the
current line count performs no bounds check and appends the new
newline-terminated content at the end of the *newline-normalized* line
sequence that `read_text` returns; the written file is the join of the
normalized old lines plus the new line. -/
theorem insert_beyond_end_appends_normalized (resolve : String → String)
    (path content : String) (fs : FS) (old : String) (n : Int)
    (hpath : path ≠ "")
    (hsb : sandboxOk (resolve path) = true)
    (hex : fsRead fs (resolve path) = some old)
    (hgt : ((splitlines_keepends old).length : Int) < n) :
    execute_text_editor resolve ⟨"insert", path, content, some n⟩ fs
      = (.ok ⟨"inserted", resolve path, none, 1⟩,
         fsWrite fs (resolve path)
           (String.join (splitlines_keepends (pyNormalizeNewlines old)
             ++ [content ++ "\n"]))) := by
  have hlen := splitlines_keepends_normalize_length old
  have hne : ¬(("insert" : String) = "" ∨ path = "") := by simp [hpath]
  simp only [execute_text_editor]
  rw [if_neg hne, if_neg (by simp [hsb])]
  simp only [hex]
  simp [pyInsert_of_ge _ _ _
    (by omega : ((splitlines_keepends (pyNormalizeNewlines old)).length : Int) ≤ n - 1)]

/-- Witness for C8 (amended): inserting at line 5 of the one-line file
`"one\n"` appends `"X\n"` at the end. -/
theorem insert_beyond_end_appends_normalized_witness :
    execute_text_editor id ⟨"insert", "/tmp/a.txt", "X", some 5⟩ [("/tmp/a.txt", "one\n")]
      = (.ok ⟨"inserted", "/tmp/a.txt", none, 1⟩,
         fsWrite [("/tmp/a.txt", "one\n")] "/tmp/a.txt"
           (String.join (splitlines_keepends (pyNormalizeNewlines "one\n")
             ++ ["X" ++ "\n"]))) :=
  insert_beyond_end_appends_normalized id "/tmp/a.txt" "X" [("/tmp/a.txt", "one\n")]
    "one\n" 5 (by decide) (by decide) (by decide) (by decide)

theorem editor_insert_eval (resolve : String → String) (path content : String)
    (fs : FS) (old : String) (n : Int)
    (hpath : path ≠ "")
    (hsb : sandboxOk (resolve path) = true)
    (hex : fsRead fs (resolve path) = some old) :
    execute_text_editor resolve ⟨"insert", path, content, some n⟩ fs
      = (.ok ⟨"inserted", resolve path, none, 1⟩,
         fsWrite fs (resolve path)
           (String.join (pyInsert (splitlines_keepends (pyNormalizeNewlines old))
             (n - 1) (content ++ "\n")))) := by
  have hne : ¬(("insert" : String) = "" ∨ path = "") := by simp [hpath]
  simp only [execute_text_editor]
  rw [if_neg hne, if_neg (by simp [hsb])]
  simp only [hex]
  simp

/-- C4: for a skill name other than `bash` and `text_editor`, the dispatcher
exits with code 1 but prints nothing: `sys.exit(1)` raises `SystemExit`
before the `print`, and `except Exception` does not catch `SystemExit`, so
the constructed unknown-skill error document is never emitted. -/
theorem main_unknown_skill_exits_silently (run : Spawn → Except RunFailure RunResult)
    (resolve : String → String) (skill : String) (bp : BashParams) (ep : EditParams)
    (fs : FS) (h1 : skill ≠ "bash") (h2 : skill ≠ "text_editor") :
    main_try run resolve skill bp ep fs = (⟨[], 1⟩, fs) := by
  unfold main_try
  rw [if_neg h1, if_neg h2]

/-- Witness for C4: invoking the skill `"foo"` exits with code 1 and an
empty standard output. -/
theorem main_unknown_skill_exits_silently_witness :
    main_try (fun _ => .error .timeoutExpired) id "foo" ⟨"", 30, "/tmp"⟩ ⟨"", "", "", none⟩ []
      = (⟨[], 1⟩, []) :=
  main_unknown_skill_exits_silently (fun _ => .error .timeoutExpired) id "foo"
    ⟨"", 30, "/tmp"⟩ ⟨"", "", "", none⟩ [] (by decide) (by decide)

/-- C9: the sandbox check accepts every string extending the characters
`"/tmp"`, and in particular `create` on `/tmpfoo/x` — a sibling of `/tmp`,
not inside it — passes the check and the write proceeds. -/
theorem sandbox_accepts_tmp_string_prefix (rest : String) :
    sandboxOk ("/tmp" ++ rest) = true ∧
    execute_text_editor id ⟨"create", "/tmpfoo/x", "hi", none⟩ []
      = (.ok ⟨"created", "/tmpfoo/x", none, 1⟩, [("/tmpfoo/x", "hi")]) := by
  constructor
  · unfold sandboxOk pyStartsWith
    rw [String.data_append]
    simp [List.isPrefixOf_iff_prefix]
  · rfl

/-- Counterexample for C10 as stated: inserting `"X"` at `line_number = 0`
into the stored file `"a\r\nb"` writes `"a\nX\nb"`, not the join of the raw
stored line sequence with the new line before its last entry (which would
be `"a\r\nX\nb"`): the sequence being inserted into is the normalized one
`read_text` returns. -/
theorem insert_line_zero_cr_counterexample :
    fsRead (execute_text_editor id ⟨"insert", "/tmp/a.txt", "X", some 0⟩
        [("/tmp/a.txt", "a\r\nb")]).2 "/tmp/a.txt" = some "a\nX\nb" ∧
    ("a\nX\nb" : String) ≠ String.join
      ((splitlines_keepends "a\r\nb").take ((splitlines_keepends "a\r\nb").length - 1)
        ++ ["X" ++ "\n"]
        ++ (splitlines_keepends "a\r\nb").drop ((splitlines_keepends "a\r\nb").length - 1)) :=
  ⟨rfl, by decide⟩

/-- C10 (amended): `insert` with a non-positive line number indexes from
the end of the *newline-normalized* line sequence that `read_text` returns,
per Python `list.insert`: with `line_number = 0` (index `-1`) the new line
lands immediately before the last normalized line, and with
`line_number - 1 ≤ -L` it lands at the very beginning of the file. -/
theorem insert_nonpositive_line_number_normalized (resolve : String → String)
    (path content : String) (fs : FS) (old : String) (n : Int)
    (hpath : path ≠ "")
    (hsb : sandboxOk (resolve path) = true)
    (hex : fsRead fs (resolve path) = some old)
    (hne : old ≠ "") :
    (n = 0 →
      execute_text_editor resolve ⟨"insert", path, content, some n⟩ fs
        = (.ok ⟨"inserted", resolve path, none, 1⟩,
           fsWrite fs (resolve path)
             (String.join
               ((splitlines_keepends (pyNormalizeNewlines old)).take
                   ((splitlines_keepends (pyNormalizeNewlines old)).length - 1)
                 ++ [content ++ "\n"]
                 ++ (splitlines_keepends (pyNormalizeNewlines old)).drop
                   ((splitlines_keepends (pyNormalizeNewlines old)).length - 1))))) ∧
    (n - 1 ≤ -(((splitlines_keepends old).length : Int)) →
      execute_text_editor resolve ⟨"insert", path, content, some n⟩ fs
        = (.ok ⟨"inserted", resolve path, none, 1⟩,
           fsWrite fs (resolve path)
             (String.join ((content ++ "\n")
               :: splitlines_keepends (pyNormalizeNewlines old))))) := by
  have hlen := splitlines_keepends_normalize_length old
  have hL : 1 ≤ (splitlines_keepends (pyNormalizeNewlines old)).length :=
    List.length_pos.mpr
      (splitlines_keepends_ne_nil (pyNormalizeNewlines old)
        (pyNormalizeNewlines_ne_empty old hne))
  have heval := editor_insert_eval resolve path content fs old n hpath hsb hex
  constructor
  · intro h0
    rw [heval]
    subst h0
    unfold pyInsert
    rw [if_pos (by decide : (0 : Int) - 1 < 0)]
    have hidx : (((splitlines_keepends (pyNormalizeNewlines old)).length : Int) + (0 - 1)).toNat
        = (splitlines_keepends (pyNormalizeNewlines old)).length - 1 := by omega
    rw [hidx]
  · intro hle
    rw [heval]
    unfold pyInsert
    rw [if_pos (by omega : n - 1 < 0)]
    have hidx : (((splitlines_keepends (pyNormalizeNewlines old)).length : Int)
        + (n - 1)).toNat = 0 := by omega
    rw [hidx]
    simp

/-- Witness for C10 (amended): on the one-line file `"one"`, inserting
`"X"` at `line_number = 0` places it before the last line, which for this
file is also the very beginning. -/
theorem insert_nonpositive_line_number_normalized_witness :
    ((0 : Int) = 0 →
      execute_text_editor id ⟨"insert", "/tmp/a.txt", "X", some 0⟩ [("/tmp/a.txt", "one")]
        = (.ok ⟨"inserted", "/tmp/a.txt", none, 1⟩,
           fsWrite [("/tmp/a.txt", "one")] "/tmp/a.txt"
             (String.join
               ((splitlines_keepends (pyNormalizeNewlines "one")).take
                   ((splitlines_keepends (pyNormalizeNewlines "one")).length - 1)
                 ++ ["X" ++ "\n"]
                 ++ (splitlines_keepends (pyNormalizeNewlines "one")).drop
                   ((splitlines_keepends (pyNormalizeNewlines "one")).length - 1))))) ∧
    ((0 : Int) - 1 ≤ -(((splitlines_keepends "one").length : Int)) →
      execute_text_editor id ⟨"insert", "/tmp/a.txt", "X", some 0⟩ [("/tmp/a.txt", "one")]
        = (.ok ⟨"inserted", "/tmp/a.txt", none, 1⟩,
           fsWrite [("/tmp/a.txt", "one")] "/tmp/a.txt"
             (String.join (("X" ++ "\n")
               :: splitlines_keepends (pyNormalizeNewlines "one"))))) :=
  insert_nonpositive_line_number_normalized id "/tmp/a.txt" "X" [("/tmp/a.txt", "one")]
    "one" 0 (by decide) (by decide) (by decide) (by decide)

end Molten
